import Mathlib

/-!
Verification development for the expiry-day straddle trading strategy
(`src/strategies/strategy1.py` and its collaborators).

Prices and notionals are modelled as exact rationals (`ℚ`), quantities and
strikes as integers (`ℤ`).  Python's `round(x, 2)` is modelled by `round2`
below; Python rounds half to even on binary floats while `round2` rounds
half up, but every concrete value appearing in this development is away
from a tie, where the two agree.

`instrument.py` and `price_monitor.py` are not part of the sources; the
pieces of them that strategy1.py uses (the `Instrument` record fields, the
derived `symbol` key, and the price-monitor query surface) are modelled
from the spec, as noted at the definitions concerned.  All behaviour under
verification is translated from `strategy1.py` itself.
-/

namespace Strategy1

/-- Python `round(x, 2)`: round to two decimal places.  (Half-up model of
Python's half-even; agrees off ties.) -/
def round2 (q : ℚ) : ℚ := (⌊q * 100 + 1 / 2⌋ : ℚ) / 100

/-- Order action, the `transactiontype` strings "BUY"/"SELL" of the broker
order book and `Action` of `instrument.py`. -/
inductive Action
  | BUY
  | SELL
deriving DecidableEq, Repr

/-- Option type strings "CE"/"PE". -/
inductive OptionType
  | CE
  | PE
deriving DecidableEq, Repr

/-- One options leg, mirroring the `Instrument` record as used by
strategy1.py (action, lot size, expiry, option type, strike, index,
entry time, price, order id).  Expiry and entry time are abstract time
codes (`ℕ`); they only travel along, no claim computes with them. -/
structure Instrument where
  action : Action
  lot_size : ℤ
  expiry : ℕ
  option_type : OptionType
  strike : ℤ
  index : String
  entry : ℕ
  price : ℚ
  order_id : String
deriving DecidableEq, Repr

/-- Modelled from the spec: `instrument.py` is not under src/; §3 defines
the derived `symbol` key as `index + expiry + strike + optionType`, used
for price lookups and for matching fills of the same contract.  We model
the key as the quadruple itself (string concatenation of distinct fields
is injective on this data). -/
structure Sym where
  index : String
  expiry : ℕ
  strike : ℤ
  option_type : OptionType
deriving DecidableEq, Repr

/-- The derived symbol key of an instrument. -/
def Instrument.symbol (i : Instrument) : Sym :=
  { index := i.index, expiry := i.expiry, strike := i.strike,
    option_type := i.option_type }

/-- A CE/PE pair (`PairInstrument`). -/
structure PairInstrument where
  ce_instrument : Instrument
  pe_instrument : Instrument
deriving DecidableEq, Repr

/-- One broker order-book fill record, with the fields
`orderbook_data_to_instrument` reads.  `expirydate`/`updatetime` are
abstract time codes. -/
structure OrderData where
  transactiontype : Action
  filledshares : ℤ
  strikeprice : ℤ
  optiontype : OptionType
  expirydate : ℕ
  updatetime : ℕ
  averageprice : ℚ
  orderid : String
deriving DecidableEq, Repr

/-- `Strategy1.get_instrument_price_from_orderbook`: signed notional of a
fill — average price times filled quantity, negated for a BUY. -/
def get_instrument_price_from_orderbook (data : OrderData) : ℚ :=
  let price := data.averageprice * (data.filledshares : ℚ)
  if data.transactiontype = Action.BUY then -price else price

/-- `Strategy1.orderbook_data_to_instrument`. -/
def orderbook_data_to_instrument (orderbook_data : OrderData) : Instrument :=
  { action := orderbook_data.transactiontype,
    lot_size := orderbook_data.filledshares,
    expiry := orderbook_data.expirydate,
    option_type := orderbook_data.optiontype,
    strike := orderbook_data.strikeprice,
    index := "NIFTY",
    entry := orderbook_data.updatetime,
    price := get_instrument_price_from_orderbook orderbook_data,
    order_id := orderbook_data.orderid }

/-- `Strategy1.update_transaction`: merge a further fill into the open
aggregate transaction of a symbol.  Returns the realized pnl of the merge
and the new open transaction. -/
def update_transaction (transaction1 transaction2 : Instrument) :
    ℚ × Instrument :=
  let r : ℚ × ℚ × Action × ℤ :=
    if transaction1.action = transaction2.action then
      let price := transaction1.price + transaction2.price
      let quantity := transaction1.lot_size + transaction2.lot_size
      -- pnl is zero as we are not squaring off
      (0, price, transaction1.action, quantity)
    else
      if transaction1.lot_size > transaction2.lot_size then
        let min_qty := transaction2.lot_size
        let price1 :=
          round2 (transaction1.price / (transaction1.lot_size : ℚ) * (min_qty : ℚ))
        let price2 := transaction2.price
        let pnl := round2 (price1 + price2)
        (pnl, transaction1.price - price1, transaction1.action,
          transaction1.lot_size - min_qty)
      else
        let min_qty := transaction1.lot_size
        let price1 := transaction1.price
        let price2 :=
          round2 (transaction2.price / (transaction2.lot_size : ℚ) * (min_qty : ℚ))
        let pnl := round2 (price1 + price2)
        (pnl, transaction2.price - price2, transaction2.action,
          transaction2.lot_size - min_qty)
  (r.1,
    { action := r.2.2.1,
      lot_size := r.2.2.2,
      expiry := transaction2.expiry,
      option_type := transaction2.option_type,
      strike := transaction2.strike,
      index := transaction2.index,
      entry := transaction2.entry,
      price := r.2.1,
      order_id := transaction2.order_id })

/-- `Strategy1.calc_pnl_orderbook`: realized pnl of a full close — sum of
the two signed notionals. -/
def calc_pnl_orderbook (transaction1 transaction2 : Instrument) : ℚ :=
  transaction1.price + transaction2.price

/-- Lookup in the open-transactions dict (Python `dict` keyed by symbol,
modelled as an insertion-ordered association list). -/
def lookupSym : List (Sym × Instrument) → Sym → Option Instrument
  | [], _ => none
  | p :: rest, s => if p.1 = s then some p.2 else lookupSym rest s

/-- `transactions[symbol] = instr` on an existing key: replace in place
(Python dicts keep the original insertion position on update). -/
def replaceSym : List (Sym × Instrument) → Sym → Instrument →
    List (Sym × Instrument)
  | [], _, _ => []
  | p :: rest, s, i =>
    if p.1 = s then (s, i) :: rest else p :: replaceSym rest s i

/-- `transactions.pop(symbol)`: remove the key. -/
def eraseSym : List (Sym × Instrument) → Sym → List (Sym × Instrument)
  | [], _ => []
  | p :: rest, s => if p.1 = s then rest else p :: eraseSym rest s

/-- One iteration of the `for order in orderbook` loop of
`get_pnl_from_orderbook`: fold one fill into (realized total, open
transactions). -/
def fold_order (acc : ℚ × List (Sym × Instrument)) (order : OrderData) :
    ℚ × List (Sym × Instrument) :=
  let instrument := orderbook_data_to_instrument order
  match lookupSym acc.2 instrument.symbol with
  | none => (acc.1, acc.2 ++ [(instrument.symbol, instrument)])
  | some transaction1 =>
    let transaction2 := instrument
    -- if transaction types are different and quantities are equal, then we
    -- are squaring off the position
    if transaction1.action ≠ transaction2.action ∧
        transaction1.lot_size = transaction2.lot_size then
      (acc.1 + calc_pnl_orderbook transaction1 transaction2,
        eraseSym acc.2 instrument.symbol)
    else
      let r := update_transaction transaction1 transaction2
      (acc.1 + r.1, replaceSym acc.2 instrument.symbol r.2)

/-- The fill-folding phase of `get_pnl_from_orderbook`: realized total and
the surviving open transactions. -/
def process_orderbook (orderbook : List OrderData) :
    ℚ × List (Sym × Instrument) :=
  orderbook.foldl fold_order (0, [])

/-- The unrealized-pnl phase of `get_pnl_from_orderbook`, over the open
transactions, against current market prices `price_by_symbol`. -/
def unrealised_pnl (price_by_symbol : Sym → ℚ)
    (transactions : List (Sym × Instrument)) : ℚ :=
  transactions.foldl
    (fun acc p =>
      let current_price := price_by_symbol p.1 * (p.2.lot_size : ℚ)
      if p.2.action = Action.BUY then
        -- for BUY instruments the price is saved negative
        acc + (current_price + p.2.price)
      else
        acc + (p.2.price - current_price))
    0

/-- `Strategy1.get_pnl_from_orderbook`: realized + unrealized pnl from the
chronological order book, rounded once at the end. -/
def get_pnl_from_orderbook (price_by_symbol : Sym → ℚ)
    (orderbook : List OrderData) : ℚ :=
  let r := process_orderbook orderbook
  round2 (r.1 + unrealised_pnl price_by_symbol r.2)

/-! ## Sizing (`initial_lot_size`, `remaining_lot_size`) -/

/-- `Strategy1.initial_lot_size`:
`math.floor(math.floor(initial_capital / expected_margin_per_lot) / 2)`. -/
def initial_lot_size (initial_capital expected_margin_per_lot : ℚ) : ℤ :=
  ⌊((⌊initial_capital / expected_margin_per_lot⌋ : ℤ) : ℚ) / 2⌋

/-- `Strategy1.remaining_lot_size`: the cached property.  The cache cell
`self._remaining_lot_size` is passed and returned explicitly; a `some`
cache returns the stored value untouched, a `none` cache computes
`floor((capital_to_trade - actual_margin_per_lot*initial_lot) /
actual_margin_per_lot)` and stores it. -/
def remaining_lot_size (capital_to_trade actual_margin_per_lot : ℚ)
    (initial_lot : ℤ) : Option ℤ → ℤ × Option ℤ
  | some cached => (cached, some cached)
  | none =>
    let margin_used := actual_margin_per_lot * (initial_lot : ℚ)
    let v := ⌊(capital_to_trade - margin_used) / actual_margin_per_lot⌋
    (v, some v)

/-! ## Target / stop-loss monitoring -/

/-- The `target` property: `target_percent * initial_capital / 100`. -/
def target (target_percent initial_capital : ℚ) : ℚ :=
  target_percent * initial_capital / 100

/-- The `sl` property: `self._sl = sl_percent * initial_capital / 100`,
returned as `self._sl * -1` (stored-as-negative convention). -/
def sl (sl_percent initial_capital : ℚ) : ℚ :=
  sl_percent * initial_capital / 100 * -1

/-- `Strategy1.monitor_pnl`.  First component: the returned Bool.  Second
component: whether `self.exit()` was invoked in that branch. -/
def monitor_pnl (pnl tgt stop_loss : ℚ) : Bool × Bool :=
  if pnl > tgt then (true, true)
  else if pnl < stop_loss then (true, true)
  else (false, false)

/-! ## Strategy state machine (shifting, hedging, exit) -/

/-- `Strategy1.QUANTITY`. -/
def QUANTITY : ℤ := 50

/-- The mutable strategy run state of a `Strategy1` object (the fields the
shift/trade/exit operations read or write).  `entry_time` and the other
time codes are in abstract minutes. -/
structure StratState where
  straddle : Option PairInstrument
  hedging : PairInstrument
  pnl : ℚ
  first_shifting : Bool
  straddle_strike : ℤ
  market_price : ℚ
  price_monitor_register : Bool
  entry_taken : Bool
  entry_time : ℕ
  lot_size : ℤ
  remaining_lot_traded : Bool
  stop_shifting_hedges : Bool
  stop_monitor : Bool
deriving DecidableEq, Repr

/-- Modelled from the spec: `price_monitor.py` is not under src/.  The
environment bundles the price-monitor query surface (§4.1: index value,
ATM strike, price by symbol, strike by target premium), the expiry and
clock, the per-weekday config premia, the cached `remaining_lot_size`
value and the `option_buying_shifting` config switch read by the tick. -/
structure Env where
  nifty_value : ℚ
  atm_strike : ℤ
  price_by_symbol : Sym → ℚ
  strike_by_price : ℚ → OptionType → ℤ
  expiry : ℕ
  now : ℕ
  ce_buy_price : ℚ
  pe_buy_price : ℚ
  remaining_lot_size : ℤ
  hedge_shift_cfg : Bool

/-- Observable actions of a strategy operation: broker orders placed, and
entry markers for the hedge-leg shift operations `shift_ce_hedge` /
`shift_pe_hedge` (the marker is emitted exactly when the corresponding
method runs). -/
inductive Act
  | place_order (i : Instrument)
  | hedge_shift (o : OptionType)
deriving DecidableEq, Repr

/-- `Strategy1.get_instrument`: build a leg (lot size scaled by QUANTITY)
and fill in its live premium from the price monitor. -/
def get_instrument (env : Env) (strike : ℤ) (option_type : OptionType)
    (action : Action) (lot_size : ℤ) (entry : ℕ) : Instrument :=
  let instrument : Instrument :=
    { action := action, lot_size := lot_size * QUANTITY, expiry := env.expiry,
      option_type := option_type, strike := strike, index := "NIFTY",
      entry := entry, price := 0, order_id := "" }
  { instrument with price := env.price_by_symbol instrument.symbol }

/-- `Strategy1.calc_pnl`. -/
def calc_pnl (entry_price current_price : ℚ) (action : Action) : ℚ :=
  let pnl := current_price - entry_price
  round2 (if action = Action.SELL then pnl * -1 else pnl)

/-- `Strategy1.get_instrument_pnl`. -/
def get_instrument_pnl (env : Env) (instrument : Instrument) : ℚ :=
  let entry_price := instrument.price
  let current_price := env.price_by_symbol instrument.symbol
  let pnl := calc_pnl entry_price current_price instrument.action
  round2 (pnl * (instrument.lot_size : ℚ))

/-- `Strategy1.get_pair_instrument_pnl`. -/
def get_pair_instrument_pnl (env : Env) (instrument : PairInstrument) : ℚ :=
  let ce_pnl := get_instrument_pnl env instrument.ce_instrument
  let pe_pnl := get_instrument_pnl env instrument.pe_instrument
  round2 (ce_pnl + pe_pnl)

/-- `Strategy1.time_to_trade_remaining_lot`: now is past entry time plus
25 minutes. -/
def time_to_trade_remaining_lot (env : Env) (s : StratState) : Prop :=
  env.now > s.entry_time + 25

instance (env : Env) (s : StratState) :
    Decidable (time_to_trade_remaining_lot env s) :=
  Nat.decLt _ _

/-- `Strategy1.buy_remaining_lot_hedging`: buy the extra hedge lots at the
current hedge strikes and grow the stored hedge lot sizes. -/
def buy_remaining_lot_hedging (env : Env) (s : StratState) :
    StratState × List Act :=
  let ce := get_instrument env s.hedging.ce_instrument.strike OptionType.CE
    Action.BUY env.remaining_lot_size env.now
  let pe := get_instrument env s.hedging.pe_instrument.strike OptionType.PE
    Action.BUY env.remaining_lot_size env.now
  let hedging :=
    { ce_instrument :=
        { s.hedging.ce_instrument with
          lot_size := s.hedging.ce_instrument.lot_size +
            env.remaining_lot_size * QUANTITY },
      pe_instrument :=
        { s.hedging.pe_instrument with
          lot_size := s.hedging.pe_instrument.lot_size +
            env.remaining_lot_size * QUANTITY } }
  ({ s with hedging := hedging }, [Act.place_order ce, Act.place_order pe])

/-- `Strategy1.shift_straddle` (the body of the thread-safe threshold
callback, which runs it under the strategy lock).  Returns the new state
and the orders placed. -/
def shift_straddle (env : Env) (s : StratState) : StratState × List Act :=
  match s.straddle with
  | none => (s, [])
  | some straddle0 =>
    let s := { s with market_price := env.nifty_value }
    let current_straddle_strike := env.atm_strike
    if current_straddle_strike = s.straddle_strike then
      -- skipping straddle shift as previous and current strike are the
      -- same (the source returns here, before the register-flag reset at
      -- the end of the function)
      (s, [])
    else if current_straddle_strike = s.hedging.ce_instrument.strike ∨
        current_straddle_strike = s.hedging.pe_instrument.strike then
      -- square off straddle: straddle strike reached a hedge strike
      let straddle_pnl := get_pair_instrument_pnl env straddle0
      let squared : PairInstrument :=
        { ce_instrument := { straddle0.ce_instrument with action := Action.BUY },
          pe_instrument := { straddle0.pe_instrument with action := Action.BUY } }
      ({ s with
          pnl := s.pnl + straddle_pnl,
          straddle := none,
          straddle_strike := 0,
          stop_shifting_hedges := true },
        [Act.place_order squared.ce_instrument,
          Act.place_order squared.pe_instrument])
    else
      let s := { s with straddle_strike := current_straddle_strike }
      let straddle_pnl := get_pair_instrument_pnl env straddle0
      let s := { s with pnl := s.pnl + straddle_pnl }
      let squared : PairInstrument :=
        { ce_instrument := { straddle0.ce_instrument with action := Action.BUY },
          pe_instrument := { straddle0.pe_instrument with action := Action.BUY } }
      let acts1 := [Act.place_order squared.ce_instrument,
        Act.place_order squared.pe_instrument]
      -- if remaining lots are not traded, trade them during shifting
      let r1 :=
        if time_to_trade_remaining_lot env s ∧ ¬ s.remaining_lot_traded ∧
            env.remaining_lot_size > 0 then
          let s := { s with lot_size := s.lot_size + env.remaining_lot_size }
          let r := buy_remaining_lot_hedging env s
          ({ r.1 with remaining_lot_traded := true }, r.2)
        else (s, ([] : List Act))
      let s := r1.1
      let ce := get_instrument env s.straddle_strike OptionType.CE Action.SELL
        s.lot_size env.now
      let pe := get_instrument env s.straddle_strike OptionType.PE Action.SELL
        s.lot_size env.now
      let s := { s with straddle := some { ce_instrument := ce, pe_instrument := pe } }
      let acts3 := [Act.place_order ce, Act.place_order pe]
      -- if it is the first shifting, mark first shifting as done
      let s := if s.first_shifting then s else { s with first_shifting := true }
      -- once the callback has been triggered down this path the register
      -- flag is reset so a new shifting band can be registered
      ({ s with price_monitor_register := false }, acts1 ++ r1.2 ++ acts3)

/-- `Strategy1.shift_ce_hedge`: buy the new CE hedge leg, realize the old
leg's pnl into the accumulator, square it off, replace the stored leg. -/
def shift_ce_hedge (env : Env) (instrument : Instrument) (s : StratState) :
    StratState × List Act :=
  let pnl := get_instrument_pnl env s.hedging.ce_instrument
  let old := { s.hedging.ce_instrument with action := Action.SELL }
  ({ s with
      pnl := s.pnl + pnl,
      hedging := { s.hedging with ce_instrument := instrument } },
    [Act.hedge_shift OptionType.CE, Act.place_order instrument,
      Act.place_order old])

/-- `Strategy1.shift_pe_hedge`. -/
def shift_pe_hedge (env : Env) (instrument : Instrument) (s : StratState) :
    StratState × List Act :=
  let pnl := get_instrument_pnl env s.hedging.pe_instrument
  let old := { s.hedging.pe_instrument with action := Action.SELL }
  ({ s with
      pnl := s.pnl + pnl,
      hedging := { s.hedging with pe_instrument := instrument } },
    [Act.hedge_shift OptionType.PE, Act.place_order instrument,
      Act.place_order old])

/-- `Strategy1.shift_hedging`: evaluate a candidate replacement for each
hedge leg and shift it unless one of the skip conditions holds. -/
def shift_hedging (env : Env) (s : StratState) : StratState × List Act :=
  let ce_buy_strike := env.strike_by_price env.ce_buy_price OptionType.CE
  let ce_buy_instrument := get_instrument env ce_buy_strike OptionType.CE
    Action.BUY s.lot_size env.now
  let pe_buy_strike := env.strike_by_price env.pe_buy_price OptionType.PE
  let pe_buy_instrument := get_instrument env pe_buy_strike OptionType.PE
    Action.BUY s.lot_size env.now
  let r1 :=
    if ce_buy_strike = s.hedging.ce_instrument.strike then (s, ([] : List Act))
    else if ce_buy_strike > s.hedging.ce_instrument.strike then (s, [])
    else if ce_buy_strike = s.straddle_strike then (s, [])
    else if ce_buy_instrument.price > 5 then (s, [])
    else shift_ce_hedge env ce_buy_instrument s
  let r2 :=
    if pe_buy_strike = r1.1.hedging.pe_instrument.strike then (r1.1, ([] : List Act))
    else if pe_buy_strike < r1.1.hedging.pe_instrument.strike then (r1.1, [])
    else if pe_buy_strike = r1.1.straddle_strike then (r1.1, [])
    else if pe_buy_instrument.price > 5 then (r1.1, [])
    else shift_pe_hedge env pe_buy_instrument r1.1
  (r2.1, r1.2 ++ r2.2)

/-- `Strategy1.trade_remaining_lot`: deploy the reserved lots at the
original straddle strike, average the stored prices and grow the lot
sizes.  In the source the straddle is dereferenced unconditionally after
the strike guard; with the straddle closed the stored strike is 0 and a
live ATM strike is never 0, so the guard always returns first — the
`none` branch below is that unreachable path, modelled as a no-op. -/
def trade_remaining_lot (env : Env) (s : StratState) : StratState × List Act :=
  let current_straddle_strike := env.atm_strike
  if current_straddle_strike ≠ s.straddle_strike then (s, [])
  else
    match s.straddle with
    | none => (s, [])
    | some straddle0 =>
      let rl_hedging_ce := get_instrument env s.hedging.ce_instrument.strike
        OptionType.CE Action.BUY env.remaining_lot_size env.now
      let rl_hedging_pe := get_instrument env s.hedging.pe_instrument.strike
        OptionType.PE Action.BUY env.remaining_lot_size env.now
      let rl_straddle_ce := get_instrument env s.straddle_strike OptionType.CE
        Action.SELL env.remaining_lot_size env.now
      let rl_straddle_pe := get_instrument env s.straddle_strike OptionType.PE
        Action.SELL env.remaining_lot_size env.now
      let lot := (s.lot_size : ℚ)
      let rem := (env.remaining_lot_size : ℚ)
      -- price = (initial qty * price + remaining qty * price) / (total)
      let straddle_ce_price :=
        (lot * straddle0.ce_instrument.price + rem * rl_straddle_ce.price) /
          (lot + rem)
      let straddle_pe_price :=
        (lot * straddle0.pe_instrument.price + rem * rl_straddle_pe.price) /
          (lot + rem)
      let hedging_ce_price :=
        (lot * s.hedging.ce_instrument.price + rem * rl_hedging_ce.price) /
          (lot + rem)
      let hedging_pe_price :=
        (lot * s.hedging.pe_instrument.price + rem * rl_hedging_pe.price) /
          (lot + rem)
      let new_lot := s.lot_size + env.remaining_lot_size
      let straddle1 : PairInstrument :=
        { ce_instrument := { straddle0.ce_instrument with
            price := straddle_ce_price, lot_size := new_lot * QUANTITY },
          pe_instrument := { straddle0.pe_instrument with
            price := straddle_pe_price, lot_size := new_lot * QUANTITY } }
      let hedging1 : PairInstrument :=
        { ce_instrument := { s.hedging.ce_instrument with
            price := hedging_ce_price, lot_size := new_lot * QUANTITY },
          pe_instrument := { s.hedging.pe_instrument with
            price := hedging_pe_price, lot_size := new_lot * QUANTITY } }
      ({ s with
          straddle := some straddle1,
          hedging := hedging1,
          lot_size := new_lot,
          remaining_lot_traded := true },
        [Act.place_order rl_hedging_ce, Act.place_order rl_hedging_pe,
          Act.place_order rl_straddle_ce, Act.place_order rl_straddle_pe])

/-- `first_shifting_registration` / `second_shifting_registration`: both
only touch the run state by setting the register-pending flag when it is
clear (the band parameters go to the price monitor, not the state). -/
def registration_tick (s : StratState) : StratState × List Act :=
  (if s.price_monitor_register then s
    else { s with price_monitor_register := true }, [])

/-- `Strategy1.exit`: stop the monitor, square off the straddle (if any)
and the hedges by inverting each leg's action, clear the entry flag. -/
def exit_op (s : StratState) : StratState × List Act :=
  let s := { s with stop_monitor := true }
  let r1 :=
    match s.straddle with
    | some straddle0 =>
      let squared : PairInstrument :=
        { ce_instrument := { straddle0.ce_instrument with action := Action.BUY },
          pe_instrument := { straddle0.pe_instrument with action := Action.BUY } }
      ({ s with straddle := some squared },
        [Act.place_order squared.ce_instrument,
          Act.place_order squared.pe_instrument])
    | none => (s, ([] : List Act))
  let s := r1.1
  let hedging1 : PairInstrument :=
    { ce_instrument := { s.hedging.ce_instrument with action := Action.SELL },
      pe_instrument := { s.hedging.pe_instrument with action := Action.SELL } }
  ({ s with hedging := hedging1, entry_taken := false },
    r1.2 ++ [Act.place_order hedging1.ce_instrument,
      Act.place_order hedging1.pe_instrument])

/-- The state-mutating operations reachable from the main loop and the
monitor callback while entered. -/
inductive Event
  | fire_shift_straddle
  | hedge_tick
  | trade_remaining_tick
  | registration_tick_event
  | exit_event
deriving DecidableEq, Repr

/-- One operation of the run, with the guards of its call site in
`_execute`: the hedge tick runs only when the weekday config enables it
and `stop_shifting_hedges` is clear; the remaining-lot tick only past the
25-minute gate with untraded remaining lots. -/
def step (ev : Event) (env : Env) (s : StratState) : StratState × List Act :=
  match ev with
  | Event.fire_shift_straddle => shift_straddle env s
  | Event.hedge_tick =>
    if env.hedge_shift_cfg = true ∧ ¬ s.stop_shifting_hedges then
      shift_hedging env s
    else (s, [])
  | Event.trade_remaining_tick =>
    if time_to_trade_remaining_lot env s ∧ ¬ s.remaining_lot_traded ∧
        env.remaining_lot_size > 0 then
      trade_remaining_lot env s
    else (s, [])
  | Event.registration_tick_event => registration_tick s
  | Event.exit_event => exit_op s

/-- A run segment: fold a list of (event, environment) pairs, collecting
all emitted actions. -/
def run_events : List (Event × Env) → StratState → StratState × List Act
  | [], s => (s, [])
  | (ev, env) :: rest, s =>
    let r1 := step ev env s
    let r2 := run_events rest r1.1
    (r2.1, r1.2 ++ r2.2)

/-! ## Top-level error handling (`execute`, `exit_during_exception`) -/

/-- The exception taxonomy of the main loop, each carrying its `str(err)`
text. -/
inductive ExcCategory
  | price_monitor_error (msg : String)
  | price_not_updated_error (msg : String)
  | broker_order_api_error (msg : String)
  | broker_api_error (msg : String)
  | unknown_error (msg : String)
deriving DecidableEq, Repr

/-- Exceptions that `exit()` itself can raise inside
`exit_during_exception`. -/
inductive ExitError
  | broker_order_api_error (msg : String)
  | unknown_error (msg : String)
deriving DecidableEq, Repr

/-- The per-category notification text of the `execute` handlers. -/
def category_message : ExcCategory → String
  | ExcCategory.price_monitor_error _ =>
    "ALGO NOT WORKING. MARKET DATA FETCHING ISSUE."
  | ExcCategory.price_not_updated_error _ =>
    "ALGO NOT WORKING. MARKET DATA NOT UPDATED."
  | ExcCategory.broker_order_api_error _ =>
    "ALGO NOT WORKING. ORDER PUNCHING ISSUE."
  | ExcCategory.broker_api_error _ =>
    "ALGO NOT WORKING. BROKER API ISSUE."
  | ExcCategory.unknown_error _ =>
    "ALGO NOT WORKING. UNKNOWN EXCEPTION."

/-- The `str(err)` detail the handlers forward. -/
def error_detail : ExcCategory → String
  | ExcCategory.price_monitor_error msg => msg
  | ExcCategory.price_not_updated_error msg => msg
  | ExcCategory.broker_order_api_error msg => msg
  | ExcCategory.broker_api_error msg => msg
  | ExcCategory.unknown_error msg => msg

/-- `Strategy1.exit_during_exception`: attempt `exit()`; a failure is
caught and escalated with a manual-exit message.  `exit_emitted` is the
notification prefix the `exit()` attempt itself sent before returning or
raising. -/
def exit_during_exception (exit_result : Except ExitError Unit)
    (exit_emitted : List String) : List String :=
  match exit_result with
  | Except.ok _ => exit_emitted
  | Except.error (ExitError.broker_order_api_error msg) =>
    exit_emitted ++
      ["NOT ABLE TO SQUARE OFF ORDER. ORDER PUNCHING ISSUE.", msg,
        "MANUAL EXIT"]
  | Except.error (ExitError.unknown_error msg) =>
    exit_emitted ++
      ["NOT ABLE TO SQUARE OFF ORDER. UNKNOWN EXCEPTION.", msg,
        "MANUAL EXIT"]

/-- Outcome of one `execute` call: the notifications sent by the handler
block, whether the exit path was attempted, and the price monitor's stop
flag when `execute` returns. -/
structure ExecResult where
  notifs : List String
  exit_attempted : Bool
  stop_monitor : Bool
deriving DecidableEq, Repr

/-- `Strategy1.execute`: run `_execute` (outcome abstracted as
`body_result`), catch each exception category, notify, attempt the exit
path when an entry had been taken, and always signal the price monitor to
stop before returning. -/
def execute (body_result : Except ExcCategory Unit) (entry_taken : Bool)
    (exit_result : Except ExitError Unit) (exit_emitted : List String) :
    ExecResult :=
  match body_result with
  | Except.ok _ =>
    { notifs := [], exit_attempted := false, stop_monitor := true }
  | Except.error c =>
    let handler := [category_message c, error_detail c] ++
      (if entry_taken then exit_during_exception exit_result exit_emitted
        else [])
    { notifs := handler, exit_attempted := entry_taken, stop_monitor := true }

/-! ## Concrete inputs for the claims and witnesses -/

/-- Fill record: BUY 100 units at average price 10. -/
def buy_100_at_10 : OrderData :=
  { transactiontype := Action.BUY, filledshares := 100, strikeprice := 17800,
    optiontype := OptionType.CE, expirydate := 1, updatetime := 10,
    averageprice := 10, orderid := "o1" }

/-- Fill record: SELL 100 units at average price 12. -/
def sell_100_at_12 : OrderData :=
  { transactiontype := Action.SELL, filledshares := 100, strikeprice := 17800,
    optiontype := OptionType.CE, expirydate := 1, updatetime := 20,
    averageprice := 12, orderid := "o2" }

/-- Fill record: SELL 60 units at average price 12. -/
def sell_60_at_12 : OrderData :=
  { transactiontype := Action.SELL, filledshares := 60, strikeprice := 17800,
    optiontype := OptionType.CE, expirydate := 1, updatetime := 20,
    averageprice := 12, orderid := "o3" }

/-- A leg with the given action, type, strike, instrument lot size and
price (shared template for concrete run states). -/
def sample_instrument (a : Action) (ot : OptionType) (strike lot : ℤ)
    (price : ℚ) : Instrument :=
  { action := a, lot_size := lot, expiry := 1, option_type := ot,
    strike := strike, index := "NIFTY", entry := 0, price := price,
    order_id := "" }

/-- A hedge pair: long CE 18000 and long PE 17400. -/
def sample_hedging : PairInstrument :=
  { ce_instrument := sample_instrument Action.BUY OptionType.CE 18000 2500 3,
    pe_instrument := sample_instrument Action.BUY OptionType.PE 17400 2500 3 }

/-- A live straddle: short CE and PE at 17700. -/
def sample_straddle : PairInstrument :=
  { ce_instrument := sample_instrument Action.SELL OptionType.CE 17700 2500 100,
    pe_instrument := sample_instrument Action.SELL OptionType.PE 17700 2500 95 }

/-- An entered mid-session run state with the straddle at 17700. -/
def sample_state : StratState :=
  { straddle := some sample_straddle, hedging := sample_hedging, pnl := 0,
    first_shifting := true, straddle_strike := 17700, market_price := 17705,
    price_monitor_register := true, entry_taken := true, entry_time := 0,
    lot_size := 50, remaining_lot_traded := true,
    stop_shifting_hedges := false, stop_monitor := false }

/-- An environment whose recomputed ATM strike (18000) collides with the
CE hedge strike of `sample_state`. -/
def collision_env : Env :=
  { nifty_value := 17995, atm_strike := 18000, price_by_symbol := fun _ => 2,
    strike_by_price := fun _ _ => 17900, expiry := 1, now := 30,
    ce_buy_price := 5, pe_buy_price := 5, remaining_lot_size := 0,
    hedge_shift_cfg := true }

/-- An environment whose recomputed ATM strike equals the current straddle
strike of `sample_state`. -/
def unchanged_env : Env :=
  { collision_env with nifty_value := 17710, atm_strike := 17700 }

/-- An environment for hedge shifting: the CE candidate equals the current
CE hedge strike (skip), the PE candidate 17500 is inside the current PE
hedge 17400, away from the straddle, and its premium 2 is under 5
(shift). -/
def hedge_env : Env :=
  { collision_env with
    strike_by_price := fun _ ot =>
      match ot with
      | OptionType.CE => 18000
      | OptionType.PE => 17500 }

/-- `sample_state` with the straddle squared off and cleared. -/
def sample_state_none : StratState :=
  { sample_state with straddle := none, straddle_strike := 0 }

/-- Same-action fills whose merged signed notional has three decimals:
BUY 1 at 10.004 stored as -10.004. -/
def buy_1_at_10004 : Instrument :=
  { action := Action.BUY, lot_size := 1, expiry := 1,
    option_type := OptionType.CE, strike := 17800, index := "NIFTY",
    entry := 10, price := -10004 / 1000, order_id := "p1" }

/-- A second BUY 1 at 10.004 for the same symbol. -/
def buy_1_at_10004' : Instrument :=
  { buy_1_at_10004 with entry := 20, order_id := "p2" }

/-- An opposite fill closing `buy_1_at_10004` in full: SELL 1 at 0.001. -/
def sell_1_at_0001 : Instrument :=
  { buy_1_at_10004 with
    action := Action.SELL,
    entry := 20,
    price := 1 / 1000,
    order_id := "p3" }

/-! ## Helper lemmas -/

/-- Evaluation rule for `round2`: if `z` is the floor of `q*100 + 1/2`
then `round2 q = z/100`. -/
theorem round2_eq {q : ℚ} {z : ℤ} (h1 : (z : ℚ) ≤ q * 100 + 1 / 2)
    (h2 : q * 100 + 1 / 2 < z + 1) : round2 q = (z : ℚ) / 100 := by
  have h : ⌊q * 100 + 1 / 2⌋ = z := Int.floor_eq_iff.mpr ⟨h1, h2⟩
  rw [round2, h]

/-- A rational that is an exact multiple of 1/100 is a fixed point of
`round2`. -/
theorem round2_fixed {q : ℚ} {z : ℤ} (h : q * 100 = (z : ℚ)) :
    round2 q = q := by
  have h1 : (z : ℚ) ≤ q * 100 + 1 / 2 := by rw [h]; linarith
  have h2 : q * 100 + 1 / 2 < z + 1 := by rw [h]; linarith
  rw [round2_eq h1 h2]
  have h100 : (100 : ℚ) ≠ 0 := by norm_num
  field_simp
  linarith [h]

/-- A symbol absent from the lookup is not among the stored keys. -/
theorem lookupSym_eq_none {l : List (Sym × Instrument)} {s : Sym}
    (h : lookupSym l s = none) : s ∉ l.map Prod.fst := by
  induction l with
  | nil => simp
  | cons p rest ih =>
    by_cases hp : p.1 = s
    · simp [lookupSym, hp] at h
    · rw [lookupSym, if_neg hp] at h
      simp only [List.map_cons, List.mem_cons]
      rintro (h1 | h1)
      · exact hp h1.symm
      · exact ih h h1

/-- `replaceSym` keeps the key sequence unchanged. -/
theorem replaceSym_keys (l : List (Sym × Instrument)) (s : Sym)
    (i : Instrument) : (replaceSym l s i).map Prod.fst = l.map Prod.fst := by
  induction l with
  | nil => rfl
  | cons p rest ih =>
    by_cases hp : p.1 = s
    · simp [replaceSym, hp]
    · simp [replaceSym, hp, ih]

/-- The keys after `eraseSym` form a sublist of the original keys. -/
theorem eraseSym_keys_sublist (l : List (Sym × Instrument)) (s : Sym) :
    ((eraseSym l s).map Prod.fst).Sublist (l.map Prod.fst) := by
  induction l with
  | nil => simp [eraseSym]
  | cons p rest ih =>
    by_cases hp : p.1 = s
    · simp only [eraseSym, if_pos hp, List.map_cons]
      exact List.sublist_cons_self p.1 (rest.map Prod.fst)
    · simpa [eraseSym, hp] using ih.cons₂ p.1

/-- One fold step keeps the open-transaction keys duplicate-free. -/
theorem fold_order_keys_nodup {acc : ℚ × List (Sym × Instrument)}
    (h : (acc.2.map Prod.fst).Nodup) (order : OrderData) :
    (((fold_order acc order).2).map Prod.fst).Nodup := by
  rw [fold_order]
  cases hl : lookupSym acc.2 (orderbook_data_to_instrument order).symbol with
  | none =>
    simp only [List.map_append, List.map_cons, List.map_nil]
    rw [List.nodup_append]
    exact ⟨h, List.nodup_singleton _, by
      intro a ha hb
      simp only [List.mem_singleton] at hb
      exact lookupSym_eq_none hl (hb ▸ ha)⟩
  | some t1 =>
    by_cases hc : t1.action ≠ (orderbook_data_to_instrument order).action ∧
        t1.lot_size = (orderbook_data_to_instrument order).lot_size
    · simpa [hc] using h.sublist (eraseSym_keys_sublist _ _)
    · simpa [hc, replaceSym_keys] using h

@[simp]
theorem odi_action (d : OrderData) :
    (orderbook_data_to_instrument d).action = d.transactiontype := rfl

@[simp]
theorem odi_lot_size (d : OrderData) :
    (orderbook_data_to_instrument d).lot_size = d.filledshares := rfl

@[simp]
theorem odi_price (d : OrderData) :
    (orderbook_data_to_instrument d).price =
      get_instrument_price_from_orderbook d := rfl

/-- A first fill for a symbol is appended as the open transaction. -/
theorem fold_order_new_symbol (acc : ℚ × List (Sym × Instrument))
    (d : OrderData)
    (h : lookupSym acc.2 (orderbook_data_to_instrument d).symbol = none) :
    fold_order acc d =
      (acc.1, acc.2 ++ [((orderbook_data_to_instrument d).symbol,
        orderbook_data_to_instrument d)]) := by
  rw [fold_order, h]

/-- An opposite-action fill of exactly equal quantity squares the symbol
off: the two signed notionals are realized and the symbol is removed. -/
theorem fold_order_square_off (acc : ℚ × List (Sym × Instrument))
    (d : OrderData) (t1 : Instrument)
    (h : lookupSym acc.2 (orderbook_data_to_instrument d).symbol = some t1)
    (hne : t1.action ≠ d.transactiontype)
    (heq : t1.lot_size = d.filledshares) :
    fold_order acc d =
      (acc.1 + (t1.price + get_instrument_price_from_orderbook d),
        eraseSym acc.2 (orderbook_data_to_instrument d).symbol) := by
  simp only [fold_order, h]
  rw [if_pos ⟨by simpa using hne, by simpa using heq⟩]
  rfl

/-- An opposite-action fill against a larger open quantity partially
closes: realize on the fill quantity with the open side's per-unit price
scaled down, keep the remainder open under the open side's action. -/
theorem fold_order_partial_close_open_larger
    (acc : ℚ × List (Sym × Instrument)) (d : OrderData) (t1 : Instrument)
    (h : lookupSym acc.2 (orderbook_data_to_instrument d).symbol = some t1)
    (hne : t1.action ≠ d.transactiontype)
    (hgt : t1.lot_size > d.filledshares) :
    fold_order acc d =
      (acc.1 + round2 (round2 (t1.price / (t1.lot_size : ℚ) *
          (d.filledshares : ℚ)) + get_instrument_price_from_orderbook d),
        replaceSym acc.2 (orderbook_data_to_instrument d).symbol
          { action := t1.action,
            lot_size := t1.lot_size - d.filledshares,
            expiry := d.expirydate,
            option_type := d.optiontype,
            strike := d.strikeprice,
            index := "NIFTY",
            entry := d.updatetime,
            price := t1.price - round2 (t1.price / (t1.lot_size : ℚ) *
              (d.filledshares : ℚ)),
            order_id := d.orderid }) := by
  have hlot : t1.lot_size ≠ d.filledshares := ne_of_gt hgt
  simp only [fold_order, h]
  rw [if_neg (by simp [hlot])]
  simp only [update_transaction]
  rw [if_neg (by simpa using hne)]
  rw [if_pos (by simpa using hgt)]
  rfl

/-- An opposite-action fill of larger quantity partially closes the other
way: realize on the open quantity with the fill's per-unit price scaled
down, keep the remainder open under the fill's action. -/
theorem fold_order_partial_close_fill_larger
    (acc : ℚ × List (Sym × Instrument)) (d : OrderData) (t1 : Instrument)
    (h : lookupSym acc.2 (orderbook_data_to_instrument d).symbol = some t1)
    (hne : t1.action ≠ d.transactiontype)
    (hlt : t1.lot_size < d.filledshares) :
    fold_order acc d =
      (acc.1 + round2 (t1.price +
          round2 (get_instrument_price_from_orderbook d / (d.filledshares : ℚ) *
            (t1.lot_size : ℚ))),
        replaceSym acc.2 (orderbook_data_to_instrument d).symbol
          { action := d.transactiontype,
            lot_size := d.filledshares - t1.lot_size,
            expiry := d.expirydate,
            option_type := d.optiontype,
            strike := d.strikeprice,
            index := "NIFTY",
            entry := d.updatetime,
            price := get_instrument_price_from_orderbook d -
              round2 (get_instrument_price_from_orderbook d /
                (d.filledshares : ℚ) * (t1.lot_size : ℚ)),
            order_id := d.orderid }) := by
  have hlot : t1.lot_size ≠ d.filledshares := ne_of_lt hlt
  simp only [fold_order, h]
  rw [if_neg (by simp [hlot])]
  simp only [update_transaction]
  rw [if_neg (by simpa using hne)]
  rw [if_neg (by simpa using not_lt_of_gt hlt)]
  rfl

/-! ## Claim theorems -/

/-- Claim C1: the order-book reconciliation keeps one open aggregate
transaction per symbol (duplicate-free keys); a first fill is stored with
signed notional `averagePrice*filledQty`, negated for BUY; an
opposite-action fill of exactly equal quantity fully closes the symbol,
realizing the sum of the two signed notionals and removing it; an
opposite-action fill of unequal quantity partially closes, realizing on
the smaller quantity by scaling the larger side's per-unit price down and
leaving the remainder open under the larger side's action; in particular
BUY 100@10 then SELL 100@12 realize 200, and BUY 100@10 then SELL 60@12
realize 120 leaving an open BUY of 40 units at signed notional -400. -/
theorem c1_orderbook_reconciliation :
    (∀ d : OrderData,
      process_orderbook [d] =
        (0, [((orderbook_data_to_instrument d).symbol,
          orderbook_data_to_instrument d)]) ∧
      (orderbook_data_to_instrument d).price =
        (if d.transactiontype = Action.BUY then
          -(d.averageprice * (d.filledshares : ℚ))
        else d.averageprice * (d.filledshares : ℚ))) ∧
    (∀ (acc : ℚ × List (Sym × Instrument)) (d : OrderData) (t1 : Instrument),
      lookupSym acc.2 (orderbook_data_to_instrument d).symbol = some t1 →
      t1.action ≠ d.transactiontype →
      t1.lot_size = d.filledshares →
      fold_order acc d =
        (acc.1 + (t1.price + get_instrument_price_from_orderbook d),
          eraseSym acc.2 (orderbook_data_to_instrument d).symbol)) ∧
    (∀ (acc : ℚ × List (Sym × Instrument)) (d : OrderData) (t1 : Instrument),
      lookupSym acc.2 (orderbook_data_to_instrument d).symbol = some t1 →
      t1.action ≠ d.transactiontype →
      t1.lot_size > d.filledshares →
      fold_order acc d =
        (acc.1 + round2 (round2 (t1.price / (t1.lot_size : ℚ) *
            (d.filledshares : ℚ)) + get_instrument_price_from_orderbook d),
          replaceSym acc.2 (orderbook_data_to_instrument d).symbol
            { action := t1.action,
              lot_size := t1.lot_size - d.filledshares,
              expiry := d.expirydate,
              option_type := d.optiontype,
              strike := d.strikeprice,
              index := "NIFTY",
              entry := d.updatetime,
              price := t1.price - round2 (t1.price / (t1.lot_size : ℚ) *
                (d.filledshares : ℚ)),
              order_id := d.orderid })) ∧
    (∀ (acc : ℚ × List (Sym × Instrument)) (d : OrderData) (t1 : Instrument),
      lookupSym acc.2 (orderbook_data_to_instrument d).symbol = some t1 →
      t1.action ≠ d.transactiontype →
      t1.lot_size < d.filledshares →
      fold_order acc d =
        (acc.1 + round2 (t1.price +
            round2 (get_instrument_price_from_orderbook d /
              (d.filledshares : ℚ) * (t1.lot_size : ℚ))),
          replaceSym acc.2 (orderbook_data_to_instrument d).symbol
            { action := d.transactiontype,
              lot_size := d.filledshares - t1.lot_size,
              expiry := d.expirydate,
              option_type := d.optiontype,
              strike := d.strikeprice,
              index := "NIFTY",
              entry := d.updatetime,
              price := get_instrument_price_from_orderbook d -
                round2 (get_instrument_price_from_orderbook d /
                  (d.filledshares : ℚ) * (t1.lot_size : ℚ)),
              order_id := d.orderid })) ∧
    (∀ price_by_symbol : Sym → ℚ,
      get_pnl_from_orderbook price_by_symbol
        [buy_100_at_10, sell_100_at_12] = 200) ∧
    process_orderbook [buy_100_at_10, sell_100_at_12] = (200, []) ∧
    process_orderbook [buy_100_at_10, sell_60_at_12] =
      (120,
        [({ index := "NIFTY", expiry := 1, strike := 17800,
            option_type := OptionType.CE },
          { action := Action.BUY, lot_size := 40, expiry := 1,
            option_type := OptionType.CE, strike := 17800, index := "NIFTY",
            entry := 20, price := -400, order_id := "o3" })]) ∧
    (∀ orderbook : List OrderData,
      (((process_orderbook orderbook).2).map Prod.fst).Nodup) := by
  refine ⟨fun d => ⟨?_, rfl⟩,
    fold_order_square_off, fold_order_partial_close_open_larger,
    fold_order_partial_close_fill_larger, fun pf => ?_, ?_, ?_, fun ob => ?_⟩
  · simpa [process_orderbook] using fold_order_new_symbol (0, []) d rfl
  · simp [get_pnl_from_orderbook, process_orderbook, fold_order, lookupSym,
      orderbook_data_to_instrument, get_instrument_price_from_orderbook,
      buy_100_at_10, sell_100_at_12, Instrument.symbol, eraseSym,
      calc_pnl_orderbook, unrealised_pnl]
    norm_num
    rw [show (200 : ℚ) = ((20000 : ℤ) : ℚ) / 100 by norm_num]
    exact round2_eq (by norm_num) (by norm_num)
  · simp [process_orderbook, fold_order, lookupSym,
      orderbook_data_to_instrument, get_instrument_price_from_orderbook,
      buy_100_at_10, sell_100_at_12, Instrument.symbol, eraseSym,
      calc_pnl_orderbook]
    norm_num
  · have hr0 : round2 ((-600 : ℚ)) = -600 :=
      round2_fixed (z := -60000) (by norm_num)
    have hr120 : round2 ((120 : ℚ)) = 120 :=
      round2_fixed (z := 12000) (by norm_num)
    simp [process_orderbook, fold_order, lookupSym,
      orderbook_data_to_instrument, get_instrument_price_from_orderbook,
      buy_100_at_10, sell_60_at_12, Instrument.symbol, replaceSym,
      update_transaction]
    norm_num [hr0, hr120]
  · have key : ∀ (acc : ℚ × List (Sym × Instrument)),
        (acc.2.map Prod.fst).Nodup →
        (((List.foldl fold_order acc ob)).2.map Prod.fst).Nodup := by
      induction ob with
      | nil => exact fun acc h => h
      | cons o rest ih =>
        exact fun acc h => ih _ (fold_order_keys_nodup h o)
    simpa [process_orderbook] using key (0, []) (by simp)

/-- Witness for C1: the full-close and both partial-close branches applied
to the concrete fills BUY 100@10, SELL 100@12 and SELL 60@12. -/
theorem c1_orderbook_reconciliation_witness :
    ((orderbook_data_to_instrument buy_100_at_10).action ≠
        sell_100_at_12.transactiontype ∧
      (orderbook_data_to_instrument buy_100_at_10).lot_size =
        sell_100_at_12.filledshares ∧
      (orderbook_data_to_instrument buy_100_at_10).lot_size >
        sell_60_at_12.filledshares) ∧
    fold_order ((0 : ℚ),
        [((orderbook_data_to_instrument buy_100_at_10).symbol,
          orderbook_data_to_instrument buy_100_at_10)]) sell_100_at_12 =
      ((0 : ℚ) + ((orderbook_data_to_instrument buy_100_at_10).price +
          get_instrument_price_from_orderbook sell_100_at_12),
        eraseSym [((orderbook_data_to_instrument buy_100_at_10).symbol,
          orderbook_data_to_instrument buy_100_at_10)]
          (orderbook_data_to_instrument sell_100_at_12).symbol) ∧
    fold_order ((0 : ℚ),
        [((orderbook_data_to_instrument buy_100_at_10).symbol,
          orderbook_data_to_instrument buy_100_at_10)]) sell_60_at_12 =
      ((0 : ℚ) + round2 (round2 ((orderbook_data_to_instrument
            buy_100_at_10).price /
            (((orderbook_data_to_instrument buy_100_at_10).lot_size : ℤ) : ℚ) *
            ((sell_60_at_12.filledshares : ℤ) : ℚ)) +
          get_instrument_price_from_orderbook sell_60_at_12),
        replaceSym [((orderbook_data_to_instrument buy_100_at_10).symbol,
          orderbook_data_to_instrument buy_100_at_10)]
          (orderbook_data_to_instrument sell_60_at_12).symbol
          { action := (orderbook_data_to_instrument buy_100_at_10).action,
            lot_size := (orderbook_data_to_instrument buy_100_at_10).lot_size -
              sell_60_at_12.filledshares,
            expiry := sell_60_at_12.expirydate,
            option_type := sell_60_at_12.optiontype,
            strike := sell_60_at_12.strikeprice,
            index := "NIFTY",
            entry := sell_60_at_12.updatetime,
            price := (orderbook_data_to_instrument buy_100_at_10).price -
              round2 ((orderbook_data_to_instrument buy_100_at_10).price /
                (((orderbook_data_to_instrument buy_100_at_10).lot_size : ℤ) : ℚ) *
                ((sell_60_at_12.filledshares : ℤ) : ℚ)),
            order_id := sell_60_at_12.orderid }) :=
  ⟨⟨by decide, rfl, by decide⟩,
    c1_orderbook_reconciliation.2.1 _ sell_100_at_12
      (orderbook_data_to_instrument buy_100_at_10) rfl (by decide) rfl,
    c1_orderbook_reconciliation.2.2.1 _ sell_60_at_12
      (orderbook_data_to_instrument buy_100_at_10) rfl (by decide) (by decide)⟩

/-- Claim C10: for the empty order book the live PnL reconciliation
returns exactly 0 — the realized total and the open-transaction map are
both empty/zero, the unrealized total is 0, and the result does not
depend on the market-price source at all. -/
theorem c10_empty_orderbook_pnl_zero :
    (∀ price_by_symbol : Sym → ℚ,
      get_pnl_from_orderbook price_by_symbol [] = 0) ∧
    process_orderbook ([] : List OrderData) = (0, []) ∧
    (∀ price_by_symbol : Sym → ℚ, unrealised_pnl price_by_symbol [] = 0) ∧
    (∀ pf pf' : Sym → ℚ,
      get_pnl_from_orderbook pf [] = get_pnl_from_orderbook pf' []) := by
  have hz : round2 ((0 : ℚ) + 0) = 0 := by
    have := round2_fixed (q := (0 : ℚ) + 0) (z := 0) (by norm_num)
    simpa using this
  refine ⟨fun pf => ?_, rfl, fun pf => rfl, fun pf pf' => rfl⟩
  simpa [get_pnl_from_orderbook, process_orderbook, unrealised_pnl] using hz

/-- Claim C3: the initial lot size is `floor(floor(C/M)/2)` — for capital
100000 and expected margin 2000 per lot this is 25 — and the remaining
lot size is `floor((capitalToTrade - actualMarginPerLot*initialLotSize) /
actualMarginPerLot)`, computed on the first read and cached: a cached
value is returned as-is without recomputation. -/
theorem c3_lot_sizing (C M ct am : ℚ) (hM : 0 < M) :
    initial_lot_size C M = ⌊((⌊C / M⌋ : ℤ) : ℚ) / 2⌋ ∧
    initial_lot_size 100000 2000 = 25 ∧
    remaining_lot_size ct am (initial_lot_size C M) none =
      (⌊(ct - am * ((initial_lot_size C M : ℤ) : ℚ)) / am⌋,
        some ⌊(ct - am * ((initial_lot_size C M : ℤ) : ℚ)) / am⌋) ∧
    (∀ v : ℤ, remaining_lot_size ct am (initial_lot_size C M) (some v) =
      (v, some v)) := by
  refine ⟨rfl, ?_, rfl, fun v => rfl⟩
  have h1 : ⌊(100000 : ℚ) / 2000⌋ = 50 := Int.floor_eq_iff.mpr (by norm_num)
  rw [initial_lot_size, h1]
  exact Int.floor_eq_iff.mpr (by norm_num)

/-- Witness for C3 at capital 100000, margin 2000 (positive). -/
theorem c3_lot_sizing_witness :
    (0 : ℚ) < 2000 ∧ initial_lot_size 100000 2000 = 25 :=
  ⟨by decide, (c3_lot_sizing 100000 2000 0 1 (by decide)).2.1⟩

/-- Claim C8: while entered, `monitor_pnl` triggers the exit path and
returns True exactly when the PnL exceeds the target
(`targetPercent * initialCapital / 100`) or falls below the stop-loss
(stored negative, `-(slPercent * initialCapital / 100)`); otherwise it
returns False and exit is not invoked. -/
theorem c8_monitor_pnl (pnl target_percent sl_percent capital : ℚ) :
    ((monitor_pnl pnl (target target_percent capital)
        (sl sl_percent capital)).1 = true ↔
      (pnl > target_percent * capital / 100 ∨
        pnl < -(sl_percent * capital / 100))) ∧
    (monitor_pnl pnl (target target_percent capital)
        (sl sl_percent capital)).2 =
      (monitor_pnl pnl (target target_percent capital)
        (sl sl_percent capital)).1 ∧
    sl sl_percent capital = -(sl_percent * capital / 100) ∧
    target target_percent capital = target_percent * capital / 100 := by
  have hsl : sl sl_percent capital = -(sl_percent * capital / 100) := by
    rw [sl]; ring
  refine ⟨?_, ?_, hsl, rfl⟩
  · rw [monitor_pnl, target, hsl]
    split_ifs with h1 h2 <;> simp_all
  · rw [monitor_pnl]
    split_ifs <;> rfl

/-- Counterexample input for the rounding claim: the fold state after the
fills BUY 1 @ 10.004 and BUY 1 @ 10.004 holds an open transaction whose
stored notional -20.008 has three decimals. -/
theorem c7_counterexample_per_step_rounding :
    (update_transaction buy_1_at_10004 buy_1_at_10004').2.price ≠
      round2 ((update_transaction buy_1_at_10004 buy_1_at_10004').2.price) ∧
    calc_pnl_orderbook buy_1_at_10004 sell_1_at_0001 ≠
      round2 (calc_pnl_orderbook buy_1_at_10004 sell_1_at_0001) := by
  have h1 : (update_transaction buy_1_at_10004 buy_1_at_10004').2.price =
      -20008 / 1000 := by
    simp [update_transaction, buy_1_at_10004, buy_1_at_10004']
    norm_num
  have h2 : calc_pnl_orderbook buy_1_at_10004 sell_1_at_0001 =
      -10003 / 1000 := by
    simp [calc_pnl_orderbook, buy_1_at_10004, sell_1_at_0001]
    norm_num
  have hr1 : round2 ((-20008 : ℚ) / 1000) = ((-2001 : ℤ) : ℚ) / 100 :=
    round2_eq (by norm_num) (by norm_num)
  have hr2 : round2 ((-10003 : ℚ) / 1000) = ((-1000 : ℤ) : ℚ) / 100 :=
    round2_eq (by norm_num) (by norm_num)
  constructor
  · rw [h1, hr1]; norm_num
  · rw [h2, hr2]; norm_num

/-- Claim C7, amended: in the order-book reconciliation, rounding to two
decimals happens only at the partial-close scaled price and realized pnl
inside `update_transaction` and at the single final rounding of the
returned total; the signed-notional construction, same-action merges,
full-close realization and the running totals are carried unrounded. -/
theorem c7_rounding_points (t1 t2 : Instrument) (d : OrderData)
    (price_by_symbol : Sym → ℚ) (orderbook : List OrderData) :
    (t1.action = t2.action →
      (update_transaction t1 t2).2.price = t1.price + t2.price ∧
      (update_transaction t1 t2).1 = 0) ∧
    calc_pnl_orderbook t1 t2 = t1.price + t2.price ∧
    get_instrument_price_from_orderbook d =
      (if d.transactiontype = Action.BUY then
        -(d.averageprice * (d.filledshares : ℚ))
      else d.averageprice * (d.filledshares : ℚ)) ∧
    (t1.action ≠ t2.action → t1.lot_size > t2.lot_size →
      (update_transaction t1 t2).1 =
        round2 (round2 (t1.price / (t1.lot_size : ℚ) * (t2.lot_size : ℚ)) +
          t2.price) ∧
      (update_transaction t1 t2).2.price =
        t1.price - round2 (t1.price / (t1.lot_size : ℚ) *
          (t2.lot_size : ℚ))) ∧
    (t1.action ≠ t2.action → ¬ t1.lot_size > t2.lot_size →
      (update_transaction t1 t2).1 =
        round2 (t1.price + round2 (t2.price / (t2.lot_size : ℚ) *
          (t1.lot_size : ℚ))) ∧
      (update_transaction t1 t2).2.price =
        t2.price - round2 (t2.price / (t2.lot_size : ℚ) *
          (t1.lot_size : ℚ))) ∧
    get_pnl_from_orderbook price_by_symbol orderbook =
      round2 ((process_orderbook orderbook).1 +
        unrealised_pnl price_by_symbol (process_orderbook orderbook).2) := by
  refine ⟨fun hs => ?_, rfl, rfl, fun hne hgt => ?_, fun hne hngt => ?_, rfl⟩
  · rw [update_transaction, if_pos hs]
    exact ⟨rfl, rfl⟩
  · rw [update_transaction, if_neg hne, if_pos hgt]
    exact ⟨rfl, rfl⟩
  · rw [update_transaction, if_neg hne, if_neg hngt]
    exact ⟨rfl, rfl⟩

/-- Witness for the amended C7: the same-action merge of the two
BUY 1 @ 10.004 fills sums notionals unrounded with zero realization, and
the equal-quantity branch guard of the opposite pair evaluates. -/
theorem c7_rounding_points_witness :
    (buy_1_at_10004.action = buy_1_at_10004'.action ∧
      (update_transaction buy_1_at_10004 buy_1_at_10004').2.price =
        buy_1_at_10004.price + buy_1_at_10004'.price ∧
      (update_transaction buy_1_at_10004 buy_1_at_10004').1 = 0) ∧
    (buy_1_at_10004.action ≠ sell_1_at_0001.action ∧
      ¬ buy_1_at_10004.lot_size > sell_1_at_0001.lot_size ∧
      (update_transaction buy_1_at_10004 sell_1_at_0001).2.price =
        sell_1_at_0001.price -
          round2 (sell_1_at_0001.price / (sell_1_at_0001.lot_size : ℚ) *
            (buy_1_at_10004.lot_size : ℚ))) :=
  ⟨⟨rfl,
    (c7_rounding_points buy_1_at_10004 buy_1_at_10004' buy_100_at_10
      (fun _ => 0) []).1 rfl⟩,
    ⟨by decide, by decide,
      ((c7_rounding_points buy_1_at_10004 sell_1_at_0001 buy_100_at_10
        (fun _ => 0) []).2.2.2.2.1 (by decide) (by decide)).2⟩⟩

/-- `buy_remaining_lot_hedging` only places orders. -/
theorem buy_remaining_lot_hedging_no_hedge_shift (env : Env)
    (s : StratState) (o : OptionType) :
    Act.hedge_shift o ∉ (buy_remaining_lot_hedging env s).2 := by
  rw [buy_remaining_lot_hedging]
  simp

/-- `buy_remaining_lot_hedging` does not touch the stop-shifting-hedges
flag. -/
@[simp]
theorem buy_remaining_lot_hedging_stop (env : Env) (s : StratState) :
    (buy_remaining_lot_hedging env s).1.stop_shifting_hedges =
      s.stop_shifting_hedges := rfl

/-- `shift_straddle` never runs a hedge-leg shift: every emitted action is
an order placement. -/
theorem shift_straddle_no_hedge_shift (env : Env) (s : StratState)
    (o : OptionType) : Act.hedge_shift o ∉ (shift_straddle env s).2 := by
  rw [shift_straddle]
  cases s.straddle with
  | none => simp
  | some straddle0 =>
    simp only []
    split_ifs <;> simp [buy_remaining_lot_hedging_no_hedge_shift]

/-- `trade_remaining_lot` never runs a hedge-leg shift. -/
theorem trade_remaining_lot_no_hedge_shift (env : Env) (s : StratState)
    (o : OptionType) : Act.hedge_shift o ∉ (trade_remaining_lot env s).2 := by
  rw [trade_remaining_lot]
  split_ifs
  · simp
  · cases s.straddle <;> simp

/-- `exit` never runs a hedge-leg shift. -/
theorem exit_op_no_hedge_shift (s : StratState) (o : OptionType) :
    Act.hedge_shift o ∉ (exit_op s).2 := by
  rw [exit_op]
  cases s.straddle <;> simp

/-- `shift_straddle` never clears the stop-shifting-hedges flag. -/
theorem shift_straddle_preserves_stop (env : Env) (s : StratState)
    (h : s.stop_shifting_hedges = true) :
    (shift_straddle env s).1.stop_shifting_hedges = true := by
  rw [shift_straddle]
  cases s.straddle with
  | none => exact h
  | some straddle0 =>
    simp only []
    split_ifs <;> simp [h]

/-- `trade_remaining_lot` does not touch the stop-shifting-hedges flag. -/
theorem trade_remaining_lot_preserves_stop (env : Env) (s : StratState) :
    (trade_remaining_lot env s).1.stop_shifting_hedges =
      s.stop_shifting_hedges := by
  rw [trade_remaining_lot]
  split_ifs
  · rfl
  · cases s.straddle <;> rfl

/-- No operation of the run clears the stop-shifting-hedges flag. -/
theorem step_preserves_stop (ev : Event) (env : Env) (s : StratState)
    (h : s.stop_shifting_hedges = true) :
    (step ev env s).1.stop_shifting_hedges = true := by
  cases ev with
  | fire_shift_straddle => exact shift_straddle_preserves_stop env s h
  | hedge_tick =>
    rw [step, if_neg (by simp [h])]
    exact h
  | trade_remaining_tick =>
    rw [step]
    split_ifs with hc
    · rw [trade_remaining_lot_preserves_stop]; exact h
    · exact h
  | registration_tick_event =>
    rw [step, registration_tick]
    split_ifs <;> exact h
  | exit_event =>
    rw [step, exit_op]
    cases s.straddle <;> exact h

/-- With the stop flag set, no operation of the run emits a hedge-leg
shift. -/
theorem step_no_hedge_shift (ev : Event) (env : Env) (s : StratState)
    (h : s.stop_shifting_hedges = true) (o : OptionType) :
    Act.hedge_shift o ∉ (step ev env s).2 := by
  cases ev with
  | fire_shift_straddle => exact shift_straddle_no_hedge_shift env s o
  | hedge_tick =>
    rw [step, if_neg (by simp [h])]
    simp
  | trade_remaining_tick =>
    rw [step]
    split_ifs
    · exact trade_remaining_lot_no_hedge_shift env s o
    · simp
  | registration_tick_event => rw [step, registration_tick]; simp
  | exit_event => exact exit_op_no_hedge_shift s o

/-- Once the stop flag is set, any further run segment keeps it set and
executes no hedge-leg shift. -/
theorem run_events_no_hedge_shift (tr : List (Event × Env))
    (s : StratState) (h : s.stop_shifting_hedges = true) :
    (run_events tr s).1.stop_shifting_hedges = true ∧
    ∀ o : OptionType, Act.hedge_shift o ∉ (run_events tr s).2 := by
  induction tr generalizing s with
  | nil => exact ⟨h, by simp [run_events]⟩
  | cons p rest ih =>
    have h1 := step_preserves_stop p.1 p.2 s h
    obtain ⟨hstop, hacts⟩ := ih (step p.1 p.2 s).1 h1
    refine ⟨by simpa [run_events] using hstop, fun o => ?_⟩
    have h2 := step_no_hedge_shift p.1 p.2 s h o
    simp only [run_events, List.mem_append]
    rintro (hmem | hmem)
    · exact h2 hmem
    · exact hacts o hmem

/-- Claim C9: with the straddle already squared off and null, any further
invocation of the straddle-shift operation returns immediately —
identical state (every field), no orders. -/
theorem c9_shift_straddle_noop_when_closed (env : Env) (s : StratState)
    (h : s.straddle = none) : shift_straddle env s = (s, []) := by
  rw [shift_straddle, h]

/-- Witness for C9 on a concrete closed state and environment. -/
theorem c9_shift_straddle_noop_witness :
    sample_state_none.straddle = none ∧
    shift_straddle collision_env sample_state_none =
      (sample_state_none, []) :=
  ⟨rfl, c9_shift_straddle_noop_when_closed collision_env sample_state_none rfl⟩

/-- Claim C5 (the code as written): when the recomputed ATM strike equals
the current straddle strike, the callback only refreshes the cached
market price and returns — no orders, straddle, hedges and accumulated
PnL unchanged — but it returns before the register-pending reset at the
end of the function, so the flag keeps its old value instead of being
reset. -/
theorem c5_unchanged_strike_no_reset (env : Env) (s : StratState)
    (p : PairInstrument) (hs : s.straddle = some p)
    (hatm : env.atm_strike = s.straddle_strike) :
    shift_straddle env s = ({ s with market_price := env.nifty_value }, []) ∧
    (shift_straddle env s).1.price_monitor_register =
      s.price_monitor_register := by
  have heq : shift_straddle env s =
      ({ s with market_price := env.nifty_value }, []) := by
    rw [shift_straddle, hs]
    simp only []
    rw [if_pos (by simpa using hatm)]
  exact ⟨heq, by rw [heq]⟩

/-- Witness for C5: a fire with the ATM strike still at 17700 leaves the
register-pending flag set (it was set when the band was registered), so
no fresh registration can ever be created. -/
theorem c5_unchanged_strike_no_reset_witness :
    sample_state.straddle = some sample_straddle ∧
    unchanged_env.atm_strike = sample_state.straddle_strike ∧
    sample_state.price_monitor_register = true ∧
    (shift_straddle unchanged_env sample_state).1.price_monitor_register =
      true :=
  ⟨rfl, rfl, rfl, by
    rw [(c5_unchanged_strike_no_reset unchanged_env sample_state
      sample_straddle rfl rfl).2]
    rfl⟩

/-- Claim C2: a straddle-shift fire whose recomputed ATM strike differs
from the straddle strike but equals either hedge leg's strike realizes
the straddle PnL into the accumulator, squares the straddle off (two BUY
orders), nulls the straddle, zeroes the strike, sets the
stop-shifting-hedges flag — and from that state on, no run segment of any
length ever executes a hedge-leg shift again. -/
theorem c2_collision_disables_hedge_shifting (env : Env) (s : StratState)
    (p : PairInstrument) (hs : s.straddle = some p)
    (hneq : env.atm_strike ≠ s.straddle_strike)
    (hcol : env.atm_strike = s.hedging.ce_instrument.strike ∨
      env.atm_strike = s.hedging.pe_instrument.strike) :
    step Event.fire_shift_straddle env s =
      ({ s with
          market_price := env.nifty_value,
          pnl := s.pnl + get_pair_instrument_pnl env p,
          straddle := none,
          straddle_strike := 0,
          stop_shifting_hedges := true },
        [Act.place_order { p.ce_instrument with action := Action.BUY },
          Act.place_order { p.pe_instrument with action := Action.BUY }]) ∧
    (∀ (tr : List (Event × Env)) (o : OptionType),
      Act.hedge_shift o ∉
        (run_events tr (step Event.fire_shift_straddle env s).1).2) := by
  have heq : step Event.fire_shift_straddle env s =
      ({ s with
          market_price := env.nifty_value,
          pnl := s.pnl + get_pair_instrument_pnl env p,
          straddle := none,
          straddle_strike := 0,
          stop_shifting_hedges := true },
        [Act.place_order { p.ce_instrument with action := Action.BUY },
          Act.place_order { p.pe_instrument with action := Action.BUY }]) := by
    rw [step, shift_straddle, hs]
    simp only []
    rw [if_neg (by simpa using hneq), if_pos (by simpa using hcol)]
  refine ⟨heq, fun tr o => ?_⟩
  exact (run_events_no_hedge_shift tr _ (by rw [heq])).2 o

/-- Witness for C2: the fire of `collision_env` against `sample_state`
(ATM 18000 = CE hedge strike, straddle at 17700). -/
theorem c2_collision_disables_hedge_shifting_witness :
    sample_state.straddle = some sample_straddle ∧
    collision_env.atm_strike ≠ sample_state.straddle_strike ∧
    collision_env.atm_strike = sample_state.hedging.ce_instrument.strike ∧
    (step Event.fire_shift_straddle collision_env
      sample_state).1.stop_shifting_hedges = true ∧
    (∀ (tr : List (Event × Env)) (o : OptionType),
      Act.hedge_shift o ∉
        (run_events tr (step Event.fire_shift_straddle collision_env
          sample_state).1).2) :=
  ⟨rfl, by decide, rfl,
    by
      rw [(c2_collision_disables_hedge_shifting collision_env sample_state
        sample_straddle rfl (by decide) (Or.inl rfl)).1],
    (c2_collision_disables_hedge_shifting collision_env sample_state
      sample_straddle rfl (by decide) (Or.inl rfl)).2⟩

/-- A chain of four `if`s returning the same value collapses to a single
`if` on the disjunction. -/
theorem ite_or4 {p1 p2 p3 p4 : Prop} [Decidable p1] [Decidable p2]
    [Decidable p3] [Decidable p4] {α : Type} (a b : α) :
    (if p1 then a else if p2 then a else if p3 then a
      else if p4 then a else b) =
      (if p1 ∨ p2 ∨ p3 ∨ p4 then a else b) := by
  by_cases h1 : p1
  · simp [h1]
  · by_cases h2 : p2
    · simp [h1, h2]
    · by_cases h3 : p3
      · simp [h1, h2, h3]
      · by_cases h4 : p4 <;> simp [h1, h2, h3, h4]

/-- Claim C6: on a tick, each hedge leg is skipped exactly when the
candidate strike equals the current hedge strike, lies outside it
(CE: strictly higher, PE: strictly lower), equals the straddle strike, or
the candidate premium exceeds 5; otherwise the new leg is bought, the old
leg's PnL is realized into the accumulator, the old leg is squared off
and the stored leg is replaced by the candidate. -/
theorem c6_hedge_shift_conditions (env : Env) (s : StratState) :
    let ce_buy_strike := env.strike_by_price env.ce_buy_price OptionType.CE
    let ce_buy_instrument := get_instrument env ce_buy_strike OptionType.CE
      Action.BUY s.lot_size env.now
    let pe_buy_strike := env.strike_by_price env.pe_buy_price OptionType.PE
    let pe_buy_instrument := get_instrument env pe_buy_strike OptionType.PE
      Action.BUY s.lot_size env.now
    let ce_skip := ce_buy_strike = s.hedging.ce_instrument.strike ∨
      ce_buy_strike > s.hedging.ce_instrument.strike ∨
      ce_buy_strike = s.straddle_strike ∨ ce_buy_instrument.price > 5
    let pe_skip := pe_buy_strike = s.hedging.pe_instrument.strike ∨
      pe_buy_strike < s.hedging.pe_instrument.strike ∨
      pe_buy_strike = s.straddle_strike ∨ pe_buy_instrument.price > 5
    let r := shift_hedging env s
    (ce_skip → r.1.hedging.ce_instrument = s.hedging.ce_instrument ∧
      Act.hedge_shift OptionType.CE ∉ r.2) ∧
    (¬ ce_skip → r.1.hedging.ce_instrument = ce_buy_instrument ∧
      Act.hedge_shift OptionType.CE ∈ r.2 ∧
      Act.place_order ce_buy_instrument ∈ r.2 ∧
      Act.place_order { s.hedging.ce_instrument with
        action := Action.SELL } ∈ r.2) ∧
    (pe_skip → r.1.hedging.pe_instrument = s.hedging.pe_instrument ∧
      Act.hedge_shift OptionType.PE ∉ r.2) ∧
    (¬ pe_skip → r.1.hedging.pe_instrument = pe_buy_instrument ∧
      Act.hedge_shift OptionType.PE ∈ r.2 ∧
      Act.place_order pe_buy_instrument ∈ r.2 ∧
      Act.place_order { s.hedging.pe_instrument with
        action := Action.SELL } ∈ r.2) ∧
    r.1.pnl = s.pnl +
      (if ce_skip then 0 else get_instrument_pnl env s.hedging.ce_instrument) +
      (if pe_skip then 0 else get_instrument_pnl env s.hedging.pe_instrument) := by
  dsimp only
  by_cases hce : env.strike_by_price env.ce_buy_price OptionType.CE =
      s.hedging.ce_instrument.strike ∨
    env.strike_by_price env.ce_buy_price OptionType.CE >
      s.hedging.ce_instrument.strike ∨
    env.strike_by_price env.ce_buy_price OptionType.CE = s.straddle_strike ∨
    (get_instrument env (env.strike_by_price env.ce_buy_price OptionType.CE)
      OptionType.CE Action.BUY s.lot_size env.now).price > 5 <;>
  by_cases hpe : env.strike_by_price env.pe_buy_price OptionType.PE =
      s.hedging.pe_instrument.strike ∨
    env.strike_by_price env.pe_buy_price OptionType.PE <
      s.hedging.pe_instrument.strike ∨
    env.strike_by_price env.pe_buy_price OptionType.PE = s.straddle_strike ∨
    (get_instrument env (env.strike_by_price env.pe_buy_price OptionType.PE)
      OptionType.PE Action.BUY s.lot_size env.now).price > 5 <;>
  simp only [shift_hedging, ite_or4] <;>
  simp [shift_ce_hedge, shift_pe_hedge, hce, hpe]

/-- Witness for C6 on `hedge_env` and `sample_state`: the CE candidate
18000 equals the current CE hedge strike (skip), the PE candidate 17500
fails every skip condition and the PE leg is shifted. -/
theorem c6_hedge_shift_conditions_witness :
    (hedge_env.strike_by_price hedge_env.ce_buy_price OptionType.CE =
      sample_state.hedging.ce_instrument.strike) ∧
    ((shift_hedging hedge_env sample_state).1.hedging.ce_instrument =
      sample_state.hedging.ce_instrument ∧
      Act.hedge_shift OptionType.CE ∉
        (shift_hedging hedge_env sample_state).2) ∧
    (¬ (hedge_env.strike_by_price hedge_env.pe_buy_price OptionType.PE =
        sample_state.hedging.pe_instrument.strike ∨
      hedge_env.strike_by_price hedge_env.pe_buy_price OptionType.PE <
        sample_state.hedging.pe_instrument.strike ∨
      hedge_env.strike_by_price hedge_env.pe_buy_price OptionType.PE =
        sample_state.straddle_strike ∨
      (get_instrument hedge_env
        (hedge_env.strike_by_price hedge_env.pe_buy_price OptionType.PE)
        OptionType.PE Action.BUY sample_state.lot_size
        hedge_env.now).price > 5)) ∧
    ((shift_hedging hedge_env sample_state).1.hedging.pe_instrument =
      get_instrument hedge_env
        (hedge_env.strike_by_price hedge_env.pe_buy_price OptionType.PE)
        OptionType.PE Action.BUY sample_state.lot_size hedge_env.now ∧
      Act.hedge_shift OptionType.PE ∈
        (shift_hedging hedge_env sample_state).2) :=
  ⟨rfl,
    ((c6_hedge_shift_conditions hedge_env sample_state).1 (Or.inl rfl)),
    by decide,
    ⟨((c6_hedge_shift_conditions hedge_env sample_state).2.2.2.1
        (by decide)).1,
      ((c6_hedge_shift_conditions hedge_env sample_state).2.2.2.1
        (by decide)).2.1⟩⟩

/-- Claim C4: every exception category escaping the main loop is caught
by `execute`, which sends its category-specific notification followed by
the error text; the exit path is attempted exactly when an entry had been
taken; a failing exit is caught separately and escalated with the
square-off failure text, the error text and "MANUAL EXIT" instead of
being swallowed; and the price monitor's stop flag is set in every
branch before `execute` returns. -/
theorem c4_execute_error_handling :
    (∀ (m : String) (et : Bool) (er : Except ExitError Unit)
        (em : List String),
      (execute (Except.error (ExcCategory.price_monitor_error m)) et er
        em).notifs.head? =
        some "ALGO NOT WORKING. MARKET DATA FETCHING ISSUE." ∧
      (execute (Except.error (ExcCategory.price_not_updated_error m)) et er
        em).notifs.head? =
        some "ALGO NOT WORKING. MARKET DATA NOT UPDATED." ∧
      (execute (Except.error (ExcCategory.broker_order_api_error m)) et er
        em).notifs.head? =
        some "ALGO NOT WORKING. ORDER PUNCHING ISSUE." ∧
      (execute (Except.error (ExcCategory.broker_api_error m)) et er
        em).notifs.head? =
        some "ALGO NOT WORKING. BROKER API ISSUE." ∧
      (execute (Except.error (ExcCategory.unknown_error m)) et er
        em).notifs.head? =
        some "ALGO NOT WORKING. UNKNOWN EXCEPTION.") ∧
    (∀ (c : ExcCategory) (et : Bool) (er : Except ExitError Unit)
        (em : List String),
      (execute (Except.error c) et er em).exit_attempted = et ∧
      (execute (Except.error c) et er em).notifs =
        [category_message c, error_detail c] ++
          (if et then exit_during_exception er em else [])) ∧
    (∀ (c : ExcCategory) (em : List String) (msg : String),
      (execute (Except.error c) true
          (Except.error (ExitError.broker_order_api_error msg)) em).notifs =
        [category_message c, error_detail c] ++ em ++
          ["NOT ABLE TO SQUARE OFF ORDER. ORDER PUNCHING ISSUE.", msg,
            "MANUAL EXIT"] ∧
      (execute (Except.error c) true
          (Except.error (ExitError.unknown_error msg)) em).notifs =
        [category_message c, error_detail c] ++ em ++
          ["NOT ABLE TO SQUARE OFF ORDER. UNKNOWN EXCEPTION.", msg,
            "MANUAL EXIT"] ∧
      "MANUAL EXIT" ∈ (execute (Except.error c) true
        (Except.error (ExitError.broker_order_api_error msg)) em).notifs) ∧
    (∀ (b : Except ExcCategory Unit) (et : Bool)
        (er : Except ExitError Unit) (em : List String),
      (execute b et er em).stop_monitor = true) := by
  refine ⟨fun m et er em => ?_, fun c et er em => ?_, fun c em msg => ?_,
    fun b et er em => ?_⟩
  · refine ⟨?_, ?_, ?_, ?_, ?_⟩ <;>
      simp [execute, category_message]
  · exact ⟨rfl, rfl⟩
  · refine ⟨?_, ?_, ?_⟩ <;>
      simp [execute, exit_during_exception]
  · cases b <;> rfl

end Strategy1
